import Mathlib

/-!
Verification of the juls-negotiator backend.

This file gives a shallow embedding, over exact rationals, of the parts of
the TypeScript/SQL code base that the checked properties talk about:

* `NegotiationService.negotiate` (src/services/negotiation.service.ts),
* `calculateDebtAfter` and `createIntegrationTracking`
  (src/utils/call-session.utils.ts),
* the `POST /api/call_result` handler and the VAPI handlers
  (src/routes/api.routes.ts, src/routes/vapi.routes.ts),
* `EmailService.sendInvoiceEmail` error wrapping (src/services/email.service.ts),
* the `authenticateM2M` middleware (both variants present in the repo),
* the `update_user_debt` trigger and insert semantics of the SQL schema.

JavaScript numbers are modelled as `ℚ` (exact rational arithmetic instead of
binary floating point; every concrete input used below is far from any
rounding boundary of float64).  `Math.round` is `⌊x + 1/2⌋`, which agrees
with the JavaScript semantics (round half towards positive infinity) on all
non-NaN inputs.  Wall-clock timestamps (`Date.now()`, `NOW()`, the
`*_at` fields of the integrations blob) are left out of the model or passed
in as parameters, since they carry no information the properties mention.
-/

namespace JulsNegotiator

/-- JavaScript `Math.round`: round to the nearest integer, half towards
positive infinity, i.e. `⌊x + 1/2⌋`. -/
def jsRound (x : ℚ) : ℤ := ⌊x + 1/2⌋

/-- `Math.round(x * 100) / 100`, the 2-decimal rounding used by the
negotiation service. -/
def round2 (x : ℚ) : ℚ := (jsRound (x * 100) : ℚ) / 100

/-- Request shape of `NegotiationService.negotiate`
(`NegotiationRequest` in negotiation.service.ts). -/
structure NegotiationRequest where
  user_amounts : List ℚ
  agent_amounts : List ℚ
  user_amount : ℚ
  user_debt : ℚ
deriving DecidableEq

/-- Status component of a negotiation response. -/
inductive NegStatus where
  | HAGGLE
  | STOP
deriving DecidableEq

/-- Response shape of `NegotiationService.negotiate`
(`NegotiationResponse` in negotiation.service.ts). -/
structure NegotiationResponse where
  status : NegStatus
  agent_amount : ℚ
  user_amounts : List ℚ
  agent_amounts : List ℚ
deriving DecidableEq

/-- The request accepted by `NegotiationSchema` (api.routes.ts): both lists
are lists of numbers and `user_amount`, `user_debt` are positive. The list
elements themselves carry no constraint in the schema. -/
def validNegotiationRequest (r : NegotiationRequest) : Prop :=
  0 < r.user_amount ∧ 0 < r.user_debt

instance (r : NegotiationRequest) : Decidable (validNegotiationRequest r) :=
  inferInstanceAs (Decidable (_ ∧ _))

/-- The STOP response built in all three accepting branches of `negotiate`:
the agent amount is the current user offer and both histories get the user
amount appended. -/
def stopResponse (r : NegotiationRequest) : NegotiationResponse :=
  { status := .STOP
    agent_amount := r.user_amount
    user_amounts := r.user_amounts ++ [r.user_amount]
    agent_amounts := r.agent_amounts ++ [r.user_amount] }

/-- `const currentRound = user_amounts.length + 1` (1-indexed round). -/
def currentRound (r : NegotiationRequest) : ℕ := r.user_amounts.length + 1

/-- `const maxAmount = Math.min(user_debt, user_debt)` — kept verbatim from
the source, where it is a degenerate min. -/
def maxAmount (r : NegotiationRequest) : ℚ := min r.user_debt r.user_debt

/-- `const initialOffer = user_amounts[0] || user_amount`.  For numbers the
JavaScript `||` falls through exactly when the left side is falsy, i.e. when
`user_amounts` is empty (`undefined`) or its first element is `0`; the model
captures both through the default value `0`. -/
def initialOffer (r : NegotiationRequest) : ℚ :=
  if r.user_amounts.headD 0 = 0 then r.user_amount else r.user_amounts.headD 0

/-- `targetAmount = Math.min(initialOffer * 1.30, maxAmount)` with
`TARGET_MULTIPLIER = 1.3`. -/
def targetAmount (r : NegotiationRequest) : ℚ :=
  min (initialOffer r * (13/10)) (maxAmount r)

/-- Round-1 counter-offer:
`Math.min(user_amount * 1.8, maxAmount, user_debt * 0.7)`. -/
def round1Counter (r : NegotiationRequest) : ℚ :=
  min (min (r.user_amount * (9/5)) (maxAmount r)) (r.user_debt * (7/10))

/-- `Math.max(targetAmount * 0.9, user_debt * 0.5, initialOffer)` where
`0.5` is `MIN_ACCEPTABLE_RATIO` in the source; the floor applied to
counter-offers on rounds after the first. -/
def minAcceptable (r : NegotiationRequest) : ℚ :=
  max (max (targetAmount r * (9/10)) (r.user_debt * (1/2))) (initialOffer r)

/-- `lastAgentAmount`, i.e. `agent_amounts[agent_amounts.length - 1]`.  On
an empty history this is `undefined` in JavaScript (all arithmetic becomes
NaN); the model totalises it with default `0`, and every theorem about the
later-round branch assumes the histories have equal length (the documented
wire contract), so the default is never exercised there. -/
def lastAgentAmount (r : NegotiationRequest) : ℚ := r.agent_amounts.getLastD 0

/-- `reductionFactor = 0.4 + currentRound * 0.1`. -/
def reductionFactor (r : NegotiationRequest) : ℚ :=
  (2/5) + (currentRound r : ℚ) * (1/10)

/-- `agentAmount = lastAgentAmount - gap * reductionFactor` with
`gap = lastAgentAmount - user_amount`. -/
def concessionOffer (r : NegotiationRequest) : ℚ :=
  lastAgentAmount r - (lastAgentAmount r - r.user_amount) * reductionFactor r

/-- Counter-offer on rounds after the first: the concession offer, replaced
by a 10% concession (`lastAgentAmount * 0.9`) when it fails to decrease
(`agentAmount >= lastAgentAmount`), then clamped from below by
`minAcceptable` via `Math.max`. -/
def laterCounter (r : NegotiationRequest) : ℚ :=
  max
    (if lastAgentAmount r ≤ concessionOffer r then lastAgentAmount r * (9/10)
     else concessionOffer r)
    (minAcceptable r)

/-- The pre-rounding counter-offer chosen by `negotiate` for the current
round. -/
def counterOffer (r : NegotiationRequest) : ℚ :=
  if currentRound r = 1 then round1Counter r else laterCounter r

/-- `NegotiationService.negotiate` (negotiation.service.ts), with
`MAX_ROUNDS = 3`.  Branch order follows the source: max-rounds check, then
target-met check, then counter-offer computation, 2-decimal rounding,
acceptance check (`agentAmount <= user_amount * 1.1` or final round),
otherwise HAGGLE. -/
def negotiate (r : NegotiationRequest) : NegotiationResponse :=
  if 3 < currentRound r then stopResponse r
  else if targetAmount r ≤ r.user_amount then stopResponse r
  else if round2 (counterOffer r) ≤ r.user_amount * (11/10) ∨ currentRound r = 3 then
    stopResponse r
  else
    { status := .HAGGLE
      agent_amount := round2 (counterOffer r)
      user_amounts := r.user_amounts ++ [r.user_amount]
      agent_amounts := r.agent_amounts ++ [round2 (counterOffer r)] }

example : negotiate ⟨[], [], 100, 5000⟩ = ⟨.HAGGLE, 180, [100], [180]⟩ := by
  norm_num [negotiate, currentRound, targetAmount, initialOffer, maxAmount, counterOffer,
    round1Counter, round2, jsRound, stopResponse]

example : negotiate ⟨[100], [180], 150, 5000⟩ = ⟨.STOP, 150, [100, 150], [180, 150]⟩ := by
  norm_num [negotiate, currentRound, targetAmount, initialOffer, maxAmount, counterOffer,
    round1Counter, laterCounter, lastAgentAmount, reductionFactor, concessionOffer,
    minAcceptable, round2, jsRound, stopResponse]

example : (negotiate ⟨[], [], 6000, 5000⟩).agent_amount = 6000 := by
  norm_num [negotiate, currentRound, targetAmount, initialOffer, maxAmount, stopResponse]

/-! ### Structural lemmas about `negotiate` -/

theorem round2_le_add (x : ℚ) : round2 x ≤ x + 1/200 := by
  unfold round2 jsRound
  have h := Int.floor_le (x * 100 + 1/2)
  rw [div_le_iff₀ (by norm_num : (0:ℚ) < 100)]
  linarith

theorem initialOffer_le_debt (r : NegotiationRequest)
    (h1 : r.user_amount ≤ r.user_debt) (h2 : r.user_amounts.headD 0 ≤ r.user_debt) :
    initialOffer r ≤ r.user_debt := by
  unfold initialOffer
  split_ifs <;> assumption

theorem targetAmount_le_debt (r : NegotiationRequest) :
    targetAmount r ≤ r.user_debt := by
  unfold targetAmount maxAmount
  exact le_trans (min_le_right _ _) (by simp)

theorem minAcceptable_le_debt (r : NegotiationRequest) (hd : 0 < r.user_debt)
    (hiO : initialOffer r ≤ r.user_debt) : minAcceptable r ≤ r.user_debt := by
  have ht := targetAmount_le_debt r
  unfold minAcceptable
  refine max_le (max_le ?_ ?_) hiO <;> linarith

theorem round1Counter_le_debt (r : NegotiationRequest) :
    round1Counter r ≤ r.user_debt := by
  unfold round1Counter maxAmount
  exact le_trans (min_le_left _ _) (le_trans (min_le_right _ _) (by simp))

theorem laterCounter_le_debt (r : NegotiationRequest) (hd : 0 < r.user_debt)
    (hiO : initialOffer r ≤ r.user_debt)
    (hlast : lastAgentAmount r ≤ r.user_debt) :
    laterCounter r ≤ r.user_debt := by
  unfold laterCounter
  refine max_le ?_ (minAcceptable_le_debt r hd hiO)
  split_ifs with h
  · linarith
  · linarith [not_le.mp h]

theorem counterOffer_le_debt (r : NegotiationRequest) (hd : 0 < r.user_debt)
    (h1 : r.user_amount ≤ r.user_debt) (h2 : r.user_amounts.headD 0 ≤ r.user_debt)
    (hlast : lastAgentAmount r ≤ r.user_debt) :
    counterOffer r ≤ r.user_debt := by
  unfold counterOffer
  split_ifs
  · exact round1Counter_le_debt r
  · exact laterCounter_le_debt r hd (initialOffer_le_debt r h1 h2) hlast

/-- Case analysis for `negotiate`: every run either takes one of the three
STOP branches (returning `stopResponse`), or haggles with the rounded
counter-offer, in which case the acceptance check failed strictly and the
round number was at most 2. -/
theorem negotiate_cases (r : NegotiationRequest) :
    negotiate r = stopResponse r ∨
    (negotiate r =
        { status := .HAGGLE
          agent_amount := round2 (counterOffer r)
          user_amounts := r.user_amounts ++ [r.user_amount]
          agent_amounts := r.agent_amounts ++ [round2 (counterOffer r)] } ∧
      r.user_amount * (11/10) < round2 (counterOffer r) ∧ currentRound r ≤ 2) := by
  unfold negotiate
  split_ifs with h1 h2 h3
  · exact Or.inl rfl
  · exact Or.inl rfl
  · exact Or.inl rfl
  · push_neg at h1 h3
    exact Or.inr ⟨rfl, h3.1, by omega⟩

/-! ### Claims about the Negotiation Calculator -/

/-- C1 (counterexample).  The claim as stated is false: the request
`{user_amounts: [], agent_amounts: [], user_amount: 6000, user_debt: 5000}`
passes validation (both numbers positive), yet `negotiate` takes the
target-met STOP branch and echoes the user offer `6000` as the agent
amount, exceeding the total debt `5000`. -/
theorem negotiate_agent_exceeds_debt_cx :
    validNegotiationRequest ⟨[], [], 6000, 5000⟩ ∧
    (negotiate ⟨[], [], 6000, 5000⟩).status = .STOP ∧
    (5000 : ℚ) < (negotiate ⟨[], [], 6000, 5000⟩).agent_amount := by
  refine ⟨⟨by norm_num, by norm_num⟩, ?_, ?_⟩ <;>
    norm_num [negotiate, currentRound, targetAmount, initialOffer, maxAmount, stopResponse]

/-- C1 (amended).  For a validated request whose offer history is coherent —
the user offer lists have equal length and the current offer, the first
recorded user offer and the last recorded agent offer are each at most the
total debt — the agent amount returned by `negotiate` never exceeds the
total debt by more than `1/200` (the half-cent slack introduced by the
2-decimal `Math.round`); the STOP branches return exactly the current user
offer, which is at most the debt. -/
theorem negotiate_agent_le_debt (r : NegotiationRequest)
    (hlen : r.agent_amounts.length = r.user_amounts.length)
    (hv : validNegotiationRequest r)
    (h1 : r.user_amount ≤ r.user_debt)
    (h2 : r.user_amounts.headD 0 ≤ r.user_debt)
    (h3 : r.agent_amounts.getLastD 0 ≤ r.user_debt) :
    (negotiate r).agent_amount ≤ r.user_debt + 1/200 := by
  have hco := counterOffer_le_debt r hv.2 h1 h2 h3
  rcases negotiate_cases r with h | ⟨h, _, _⟩ <;> rw [h]
  · show r.user_amount ≤ _
    linarith
  · show round2 (counterOffer r) ≤ _
    linarith [round2_le_add (counterOffer r)]

/-- C1 (witness for the amended theorem): the documented round-2 example
request satisfies every hypothesis and its agent amount is bounded. -/
theorem negotiate_agent_le_debt_witness :
    (negotiate ⟨[100], [180], 150, 5000⟩).agent_amount ≤ 5000 + 1/200 :=
  negotiate_agent_le_debt ⟨[100], [180], 150, 5000⟩ (by simp)
    ⟨by norm_num, by norm_num⟩ (by norm_num) (by norm_num) (by norm_num)

/-- C2 (confirmed).  Whenever the prior user-offer list has length 2 or more
(round number at least 3), `negotiate` returns STOP: the round-count guard,
the target-met guard and the final-round acceptance check leave no path to
HAGGLE. -/
theorem negotiate_stops_from_round_three (r : NegotiationRequest)
    (h : 2 ≤ r.user_amounts.length) :
    (negotiate r).status = .STOP := by
  rcases negotiate_cases r with heq | ⟨_, _, hround⟩
  · rw [heq]; rfl
  · exfalso
    unfold currentRound at hround
    omega

/-- C2 (witness): a concrete third-round request stops. -/
theorem negotiate_stops_from_round_three_witness :
    (negotiate ⟨[10, 20], [40, 30], 25, 100⟩).status = .STOP :=
  negotiate_stops_from_round_three ⟨[10, 20], [40, 30], 25, 100⟩ (by simp)

/-- C7 (confirmed).  On round 1 with empty histories, the request
`{user_amounts: [], agent_amounts: [], user_amount: 100, user_debt: 5000}`
haggles with agent amount `min (100 * 1.8) (min 5000 (5000 * 0.7)) = 180`
and the histories extended to `[100]` and `[180]`. -/
theorem negotiate_round_one_example :
    negotiate ⟨[], [], 100, 5000⟩ = ⟨.HAGGLE, 180, [100], [180]⟩ ∧
    (180 : ℚ) = min (min (100 * (9/5)) 5000) (5000 * (7/10)) := by
  constructor
  · norm_num [negotiate, currentRound, targetAmount, initialOffer, maxAmount, counterOffer,
      round1Counter, round2, jsRound, stopResponse]
  · norm_num

/-! ### The NaN-faithful model of `negotiate`

The `ℚ` model above totalises `agent_amounts[agent_amounts.length - 1]`
with `0`.  That default is never reachable from coherent histories
(`agent_amounts` nonempty whenever the round number exceeds 1), but the
`NegotiationSchema` accepts incoherent ones, and on those the JavaScript
program computes with `undefined`, which behaves as NaN in every arithmetic
operation and comparison the later-round branch performs.  `JsNum` and
`negotiateJS` embed that behaviour exactly; `negotiateJS_eq` proves the two
models agree whenever the later-round branch never reads past the end of
`agent_amounts`. -/

/-- A JavaScript number as the negotiation arithmetic sees it: an ordinary
(finite) number or NaN.  `undefined` operands behave as NaN in the
arithmetic (`undefined - x` is NaN) and comparisons (`x >= undefined` is
false) used here, so they are folded into `nan`. -/
inductive JsNum where
  | num (q : ℚ)
  | nan
deriving DecidableEq

/-- JavaScript subtraction: NaN absorbs. -/
def JsNum.sub : JsNum → JsNum → JsNum
  | .num a, .num b => .num (a - b)
  | _, _ => .nan

/-- JavaScript multiplication: NaN absorbs. -/
def JsNum.mul : JsNum → JsNum → JsNum
  | .num a, .num b => .num (a * b)
  | _, _ => .nan

/-- JavaScript `<=`: false whenever either side is NaN. -/
def JsNum.leb : JsNum → JsNum → Bool
  | .num a, .num b => a ≤ b
  | _, _ => false

/-- JavaScript `<` (and the flipped `>`): false whenever either side is
NaN. -/
def JsNum.ltb : JsNum → JsNum → Bool
  | .num a, .num b => a < b
  | _, _ => false

/-- JavaScript `>=`: false whenever either side is NaN. -/
def JsNum.geb (a b : JsNum) : Bool := JsNum.leb b a

/-- JavaScript `Math.max` on two arguments: NaN if either argument is
NaN. -/
def jsMax2 : JsNum → JsNum → JsNum
  | .num a, .num b => .num (max a b)
  | _, _ => .nan

/-- `Math.round(x * 100) / 100` on a JavaScript number: NaN stays NaN. -/
def jsRound2 : JsNum → JsNum
  | .num q => .num (round2 q)
  | .nan => .nan

/-- `agent_amounts[agent_amounts.length - 1]` as the program reads it:
`undefined` (modelled `nan`) on an empty history. -/
def lastAgentAmountJS (r : NegotiationRequest) : JsNum :=
  match r.agent_amounts.getLast? with
  | some q => .num q
  | none => .nan

/-- The later-round counter-offer computed in JavaScript-number semantics:
same formula as `laterCounter`, with NaN propagation. -/
def laterCounterJS (r : NegotiationRequest) : JsNum :=
  jsMax2
    (if ((lastAgentAmountJS r).sub
          (((lastAgentAmountJS r).sub (.num r.user_amount)).mul
            (.num (reductionFactor r)))).geb (lastAgentAmountJS r) then
      (lastAgentAmountJS r).mul (.num (9/10))
    else
      (lastAgentAmountJS r).sub
        (((lastAgentAmountJS r).sub (.num r.user_amount)).mul
          (.num (reductionFactor r))))
    (.num (minAcceptable r))

/-- The pre-rounding counter-offer in JavaScript-number semantics.  The
round-1 branch involves no history access and stays finite. -/
def counterOfferJS (r : NegotiationRequest) : JsNum :=
  if currentRound r = 1 then .num (round1Counter r) else laterCounterJS r

/-- Response of `negotiate` with the agent amounts in JavaScript-number
semantics (a HAGGLE can carry NaN). -/
structure NegotiationResponseJS where
  status : NegStatus
  agent_amount : JsNum
  user_amounts : List ℚ
  agent_amounts : List JsNum
deriving DecidableEq

/-- The STOP response in JavaScript-number semantics: identical to
`stopResponse`, every stored number finite. -/
def stopResponseJS (r : NegotiationRequest) : NegotiationResponseJS :=
  { status := .STOP
    agent_amount := .num r.user_amount
    user_amounts := r.user_amounts ++ [r.user_amount]
    agent_amounts := r.agent_amounts.map JsNum.num ++ [.num r.user_amount] }

/-- `NegotiationService.negotiate` in JavaScript-number semantics: the same
branch structure as `negotiate`, but the later-round arithmetic propagates
NaN and the acceptance comparison is the JavaScript `<=` (false on
NaN). -/
def negotiateJS (r : NegotiationRequest) : NegotiationResponseJS :=
  if 3 < currentRound r then stopResponseJS r
  else if targetAmount r ≤ r.user_amount then stopResponseJS r
  else if (jsRound2 (counterOfferJS r)).leb (.num (r.user_amount * (11/10))) = true ∨
      currentRound r = 3 then
    stopResponseJS r
  else
    { status := .HAGGLE
      agent_amount := jsRound2 (counterOfferJS r)
      user_amounts := r.user_amounts ++ [r.user_amount]
      agent_amounts := r.agent_amounts.map JsNum.num ++ [jsRound2 (counterOfferJS r)] }

theorem counterOfferJS_eq (r : NegotiationRequest)
    (h : r.user_amounts = [] ∨ r.agent_amounts ≠ []) :
    counterOfferJS r = .num (counterOffer r) := by
  unfold counterOfferJS counterOffer
  split_ifs with h1
  · rfl
  · rcases h with h | h
    · exact absurd (by simp [currentRound, h]) h1
    · obtain ⟨q, hq⟩ : ∃ q, r.agent_amounts.getLast? = some q := by
        cases hq : r.agent_amounts.getLast? with
        | none => exact absurd (List.getLast?_eq_none_iff.mp hq) h
        | some q => exact ⟨q, rfl⟩
      have hlast : lastAgentAmountJS r = .num (r.agent_amounts.getLastD 0) := by
        unfold lastAgentAmountJS
        rw [hq, List.getLastD_eq_getLast?, hq]
        rfl
      unfold laterCounterJS laterCounter
      rw [hlast]
      simp only [JsNum.sub, JsNum.mul, JsNum.geb, JsNum.leb,
        lastAgentAmount, concessionOffer, decide_eq_true_eq]
      split_ifs <;> rfl

/-- On requests whose agent-offer history is nonempty whenever the
later-round branch runs (in particular whenever the two histories have
equal length), `negotiateJS` agrees with the total `ℚ` model
`negotiate`. -/
theorem negotiateJS_eq (r : NegotiationRequest)
    (h : r.user_amounts = [] ∨ r.agent_amounts ≠ []) :
    negotiateJS r =
      { status := (negotiate r).status
        agent_amount := .num (negotiate r).agent_amount
        user_amounts := (negotiate r).user_amounts
        agent_amounts := (negotiate r).agent_amounts.map JsNum.num } := by
  unfold negotiateJS negotiate
  rw [counterOfferJS_eq r h]
  simp only [jsRound2, JsNum.leb, decide_eq_true_eq]
  split_ifs <;> simp [stopResponseJS, stopResponse]

/-- C9 (counterexample).  The request
`{user_amounts: [50], agent_amounts: [], user_amount: 60, user_debt: 5000}`
is accepted by the schema (the two lists are not required to have equal
length), and the program HAGGLEs on it with `agent_amount = NaN`:
`agent_amounts[length - 1]` is `undefined`, the gap/clamp arithmetic
produces NaN, the NaN acceptance comparison is false and the round number
is 2 — so the returned agent amount is neither strictly greater than 1.1
times the user offer (the comparison is false) nor a 2-decimal number. -/
theorem negotiate_haggle_nan_cx :
    validNegotiationRequest ⟨[50], [], 60, 5000⟩ ∧
    (negotiateJS ⟨[50], [], 60, 5000⟩).status = .HAGGLE ∧
    (negotiateJS ⟨[50], [], 60, 5000⟩).agent_amount = .nan ∧
    JsNum.ltb (.num (60 * (11/10))) (negotiateJS ⟨[50], [], 60, 5000⟩).agent_amount
      = false ∧
    ∀ n : ℤ, (negotiateJS ⟨[50], [], 60, 5000⟩).agent_amount ≠ .num ((n : ℚ) / 100) := by
  have hval : validNegotiationRequest ⟨[50], [], 60, 5000⟩ := ⟨by norm_num, by norm_num⟩
  have heval : negotiateJS ⟨[50], [], 60, 5000⟩ =
      ⟨.HAGGLE, .nan, [50, 60], [JsNum.nan]⟩ := by
    norm_num [negotiateJS, currentRound, targetAmount, initialOffer, maxAmount,
      counterOfferJS, laterCounterJS, lastAgentAmountJS, reductionFactor,
      minAcceptable, jsMax2, jsRound2, JsNum.sub, JsNum.mul, JsNum.geb, JsNum.leb]
  rw [heval]
  exact ⟨hval, rfl, rfl, rfl, fun n => by simp⟩

/-- C9 (amended).  On a request whose agent-offer history is nonempty
whenever its user-offer history is (in particular, equal-length parallel
histories — the incoherent case is the counterexample's NaN HAGGLE), a
HAGGLE response of `negotiateJS` carries an agent amount that is a finite
number strictly greater than `1.1` times the current user offer, equal to
an integer number of hundredths (the 2-decimal rounding), and can only
arise when the prior user-offer list has length 0 or 1. -/
theorem negotiate_haggle_invariants_amended (r : NegotiationRequest)
    (hcoh : r.user_amounts = [] ∨ r.agent_amounts ≠ [])
    (hH : (negotiateJS r).status = .HAGGLE) :
    JsNum.ltb (.num (r.user_amount * (11/10))) (negotiateJS r).agent_amount = true ∧
    (∃ n : ℤ, (negotiateJS r).agent_amount = .num ((n : ℚ) / 100)) ∧
    r.user_amounts.length ≤ 1 := by
  have hEq := negotiateJS_eq r hcoh
  rw [hEq] at hH ⊢
  have hst : (negotiate r).status = .HAGGLE := hH
  rcases negotiate_cases r with heq | ⟨heq, hgt, hround⟩
  · rw [heq] at hst
    exact absurd hst (by simp [stopResponse])
  · rw [heq]
    refine ⟨by simp [JsNum.ltb, hgt], ⟨jsRound (counterOffer r * 100), ?_⟩, ?_⟩
    · show JsNum.num (round2 (counterOffer r)) = _
      rfl
    · unfold currentRound at hround
      omega

/-- C9 (witness for the amended theorem): the round-1 example request has
coherent (empty) histories, haggles, and the theorem applies to it. -/
theorem negotiate_haggle_invariants_amended_witness :
    JsNum.ltb (.num ((100 : ℚ) * (11/10))) (negotiateJS ⟨[], [], 100, 5000⟩).agent_amount
      = true ∧
    (∃ n : ℤ, (negotiateJS ⟨[], [], 100, 5000⟩).agent_amount = .num ((n : ℚ) / 100)) ∧
    List.length ([] : List ℚ) ≤ 1 :=
  negotiate_haggle_invariants_amended ⟨[], [], 100, 5000⟩ (Or.inl rfl)
    (by norm_num [negotiateJS, currentRound, targetAmount, initialOffer, maxAmount,
      counterOfferJS, round1Counter, jsRound2, round2, jsRound, JsNum.leb])

/-! ### Call sessions, integrations and the database model -/

/-- The `call_outcome` enum of the schema and the `status` field of
`CallResultSchema` (`SUCCESS | PARTIAL | REFUSED`). -/
inductive Outcome where
  | SUCCESS
  | PARTIAL
  | REFUSED
deriving DecidableEq

/-- `calculateDebtAfter` (src/utils/call-session.utils.ts): the debt is
unchanged on REFUSED and otherwise `Math.max(0, currentDebt -
paymentAmount)`. -/
def calculateDebtAfter (status : Outcome) (currentDebt paymentAmount : ℚ) : ℚ :=
  if status = .REFUSED then currentDebt else max 0 (currentDebt - paymentAmount)

/-- One sub-status of the integrations blob (`invoice`, `email` or `crm`):
status string (`PENDING | SUCCESS | FAILED`), external identifier and error
text.  Timestamp fields (`generated_at`, `sent_at`, `synced_at`) and the
`url`/`recipient` fields are wall-clock or cosmetic data the claims never
mention and are left out of the model. -/
structure IntegrationEntry where
  status : String
  external_id : Option String
  error : Option String
deriving DecidableEq

/-- The integrations blob stored on a call session. -/
structure Integrations where
  invoice : IntegrationEntry
  email : IntegrationEntry
  crm : IntegrationEntry
deriving DecidableEq

/-- `createIntegrationTracking` (src/utils/call-session.utils.ts): invoice
and email start PENDING with no external id; crm starts SUCCESS with the
session identifier. -/
def createIntegrationTracking (sessionId : String) : Integrations :=
  { invoice := ⟨"PENDING", none, none⟩
    email := ⟨"PENDING", none, none⟩
    crm := ⟨"SUCCESS", some sessionId, none⟩ }

/-- The inline `integrations` object both the `POST /api/call_result`
handler (api.routes.ts) and the `POST /api/vapi/save-result` handler
(vapi.routes.ts) build before processing: identical content to
`createIntegrationTracking`. -/
def initialIntegrations (sessionId : String) : Integrations :=
  { invoice := ⟨"PENDING", none, none⟩
    email := ⟨"PENDING", none, none⟩
    crm := ⟨"SUCCESS", some sessionId, none⟩ }

/-- JavaScript `String.prototype.includes`: substring containment,
case-sensitive. -/
def strContains (s pat : String) : Bool :=
  decide (pat.toList <:+: s.toList)

/-- The catch block shared by both call-result handlers: if the error
message contains `invoice` the invoice sub-status becomes FAILED with the
message, and if it contains `email` the email sub-status becomes FAILED
with the message.  Both checks are case-sensitive `includes` calls; the crm
entry is never touched. -/
def applyIntegrationError (ints : Integrations) (msg : String) : Integrations :=
  let ints1 :=
    if strContains msg "invoice" then
      { ints with invoice := { ints.invoice with status := "FAILED", error := some msg } }
    else ints
  if strContains msg "email" then
    { ints1 with email := { ints1.email with status := "FAILED", error := some msg } }
  else ints1

/-- The success path of both call-result handlers after

`sendInvoiceEmail` resolves: invoice and email become SUCCESS carrying the
returned invoice and email identifiers; the crm entry is never touched. -/
def applyIntegrationSuccess (ints : Integrations) (invoiceId emailId : String) :
    Integrations :=
  { ints with
    invoice := ⟨"SUCCESS", some invoiceId, none⟩
    email := ⟨"SUCCESS", some emailId, none⟩ }

/-- Successful result of `EmailService.sendInvoiceEmail`
(src/services/email.service.ts). -/
structure EmailOk where
  emailId : String
  invoiceId : String
deriving DecidableEq

/-- Error message thrown by `generateInvoicePDF` when PDF rendering
fails. -/
def invoicePdfFailureMsg : String := "Invoice PDF generation failed"

/-- Error message thrown by `sendEmail` when the SMTP/Resend call fails. -/
def emailSendFailureMsg : String := "Email sending failed"

/-- Error message that `sendInvoiceEmail` rethrows for every failure of
either sub-step (its single catch block wraps both `generateInvoicePDF` and
`sendEmail`). -/
def invoiceEmailFailureMsg : String := "Invoice email sending failed"

/-- `EmailService.sendInvoiceEmail` (src/services/email.service.ts): renders
the invoice PDF, then sends it as an attachment.  Each sub-step may fail
with its own message, but the surrounding catch rethrows every failure as
`Invoice email sending failed`, so that is the only error text a caller can
observe.  The outcomes of the two external calls are passed in as `Except`
parameters. -/
def sendInvoiceEmail (pdfResult : Except String String)
    (sendResult : Except String String) : Except String EmailOk :=
  match pdfResult with
  | .error _ => .error invoiceEmailFailureMsg
  | .ok invoiceId =>
    match sendResult with
    | .error _ => .error invoiceEmailFailureMsg
    | .ok emailId => .ok ⟨emailId, invoiceId⟩

/-- A row of the `users` table (the fields the handlers read). -/
structure User where
  id : String
  name : String
  phone_number : String
  email : Option String
  remaining_debt : ℚ
deriving DecidableEq

/-- A row of the `call_sessions` table (the columns the claims mention).
`ended_at` is always set (`NOW()`) on insert; timestamps are left out. -/
structure CallSessionRow where
  user_id : String
  external_session_id : String
  call_channel : String
  outcome : Outcome
  initial_offer : ℚ
  final_amount : ℚ
  debt_before : ℚ
  debt_after : ℚ
  integrations : Integrations
deriving DecidableEq

/-- The relational store: the two tables the call-result paths touch. -/
structure DB where
  users : List User
  call_sessions : List CallSessionRow
deriving DecidableEq

/-- The `update_user_debt` trigger function (database/schema.sql): when the
new row outcome is SUCCESS or PARTIAL and differs from the old outcome, set
the owning user's `remaining_debt` to the new `debt_after`. -/
def update_user_debt (users : List User) (oldOutcome : Option Outcome)
    (newRow : CallSessionRow) : List User :=
  if (newRow.outcome = .SUCCESS ∨ newRow.outcome = .PARTIAL) ∧
      oldOutcome ≠ some newRow.outcome then
    users.map fun u =>
      if u.id = newRow.user_id then { u with remaining_debt := newRow.debt_after } else u
  else users

/-- INSERT into `call_sessions`.  The schema attaches `update_user_debt` by
`CREATE TRIGGER call_sessions_update_debt AFTER UPDATE ON call_sessions`;
no INSERT trigger exists, so inserting a row appends it and leaves the
`users` table untouched. -/
def insertCallSession (db : DB) (row : CallSessionRow) : DB :=
  { db with call_sessions := db.call_sessions ++ [row] }

/-- UPDATE of row `i` of `call_sessions`: this is the operation the
`AFTER UPDATE` trigger fires on.  No handler in the repository ever performs
it — sessions are created already closed and never updated. -/
def updateCallSession (db : DB) (i : ℕ) (newRow : CallSessionRow) : DB :=
  match db.call_sessions.get? i with
  | none => db
  | some oldRow =>
    { users := update_user_debt db.users (some oldRow.outcome) newRow
      call_sessions := db.call_sessions.set i newRow }

/-- Body accepted by `CallResultSchema` (api.routes.ts): `user_id` string,
`status` one of the three outcomes, the three amounts nonnegative
numbers. -/
structure CallResultRequest where
  user_id : String
  status : Outcome
  initial_amount : ℚ
  final_amount : ℚ
  debt : ℚ
deriving DecidableEq

/-- JSON returned by the `POST /api/call_result` handler on success. -/
structure CallResultResponse where
  status : Outcome
  final_amount : ℚ
  debt_left : ℚ
  invoice_id : Option String
  email_sent : Bool
  session_id : String
deriving DecidableEq

/-- The shared integration-processing step of both call-result handlers:
for a SUCCESS or PARTIAL outcome on a user that has an email address, the
`sendInvoiceEmail` outcome upgrades invoice and email to SUCCESS or, on a
thrown error, routes the message through the catch block; in every other
case the initial blob is stored unchanged. -/
def processIntegrations (ints : Integrations) (status : Outcome)
    (userEmail : Option String) (emailOutcome : Except String EmailOk) : Integrations :=
  if status = .SUCCESS ∨ status = .PARTIAL then
    match userEmail with
    | some _ =>
      match emailOutcome with
      | .ok r => applyIntegrationSuccess ints r.invoiceId r.emailId
      | .error m => applyIntegrationError ints m
    | none => ints
  else ints

/-- The `POST /api/call_result` handler (api.routes.ts), inside its single
database transaction: look the user up (throwing `User not found` rolls the
transaction back), compute `debtAfter` inline
(`status === REFUSED ? debt : Math.max(0, debt - final_amount)`), build the
integrations blob, run the invoice/email step when applicable, INSERT the
session row (channel `MANUAL`) and return the success JSON.  `sessionId`
stands for the generated `SESSION-(Date.now())` string and `emailOutcome`
for the result of the awaited `sendInvoiceEmail` call. -/
def processCallResult (db : DB) (req : CallResultRequest) (sessionId : String)
    (emailOutcome : Except String EmailOk) : Except String (DB × CallResultResponse) :=
  match db.users.find? (fun u => u.id = req.user_id) with
  | none => .error "User not found"
  | some user =>
    let debtAfter :=
      if req.status = .REFUSED then req.debt else max 0 (req.debt - req.final_amount)
    let ints :=
      processIntegrations (initialIntegrations sessionId) req.status user.email emailOutcome
    let row : CallSessionRow :=
      { user_id := req.user_id
        external_session_id := sessionId
        call_channel := "MANUAL"
        outcome := req.status
        initial_offer := req.initial_amount
        final_amount := req.final_amount
        debt_before := req.debt
        debt_after := debtAfter
        integrations := ints }
    .ok (insertCallSession db row,
      { status := req.status
        final_amount := req.final_amount
        debt_left := debtAfter
        invoice_id := ints.invoice.external_id
        email_sent := ints.email.status = "SUCCESS"
        session_id := sessionId })

/-- Per-step workflow flags returned by the VAPI save-result handler. -/
structure VapiWorkflows where
  invoice_generated : Bool
  email_sent : Bool
  crm_updated : Bool
deriving DecidableEq

/-- JSON `result` returned by the `POST /api/vapi/save-result` handler. -/
structure VapiSaveResponse where
  success : Bool
  status : Outcome
  final_amount : ℚ
  debt_left : ℚ
  session_id : String
  workflows : VapiWorkflows
deriving DecidableEq

/-- The `POST /api/vapi/save-result` handler (vapi.routes.ts): same debt
computation and integrations logic as the first-party handler, but channel
`VAPI`, no transaction (a plain INSERT), a session id taken from the
request phone number (or a generated `VAPI-(Date.now())` string, passed in
as `sessionId`), and per-step workflow booleans in the response.  An
unknown user produces the `User not found` error result instead of a
throw. -/
def vapiSaveResult (db : DB) (req : CallResultRequest) (sessionId : String)
    (emailOutcome : Except String EmailOk) : Except String (DB × VapiSaveResponse) :=
  match db.users.find? (fun u => u.id = req.user_id) with
  | none => .error "User not found"
  | some user =>
    let debtAfter :=
      if req.status = .REFUSED then req.debt else max 0 (req.debt - req.final_amount)
    let ints :=
      processIntegrations (initialIntegrations sessionId) req.status user.email emailOutcome
    let row : CallSessionRow :=
      { user_id := req.user_id
        external_session_id := sessionId
        call_channel := "VAPI"
        outcome := req.status
        initial_offer := req.initial_amount
        final_amount := req.final_amount
        debt_before := req.debt
        debt_after := debtAfter
        integrations := ints }
    .ok (insertCallSession db row,
      { success := true
        status := req.status
        final_amount := req.final_amount
        debt_left := debtAfter
        session_id := sessionId
        workflows :=
          { invoice_generated := ints.invoice.status = "SUCCESS"
            email_sent := ints.email.status = "SUCCESS"
            crm_updated := true } })

/-! ### User lookup -/

/-- Outcome of `GET /api/userinfo` (api.routes.ts): the user payload, or
the 404 `User not found` error. -/
inductive UserInfoResult where
  | found (user_id name phone_number : String) (email : Option String) (debt : ℚ)
  | notFound
deriving DecidableEq

/-- HTTP status attached to each `GET /api/userinfo` outcome:
`res.status(404)` on the not-found branch, 200 otherwise. -/
def userInfoHttpStatus : UserInfoResult → ℕ
  | .found _ _ _ _ _ => 200
  | .notFound => 404

/-- The `GET /api/userinfo` handler after validation: select the user by
phone number; absent rows produce the 404 error, otherwise the payload is
returned. -/
def getUserInfo (db : DB) (phone : String) : UserInfoResult :=
  match db.users.find? (fun u => u.phone_number = phone) with
  | none => .notFound
  | some u => .found u.id u.name u.phone_number u.email u.remaining_debt

/-- The `result` payload of `POST /api/vapi/get-user-info`
(vapi.routes.ts). -/
structure VapiUserInfo where
  user_id : Option String
  name : String
  debt : ℚ
  error : Option String
deriving DecidableEq

/-- The `POST /api/vapi/get-user-info` handler: the same select, but an
absent row degrades to a synthetic success payload — null user id, generic
name `valued customer`, zero debt and an explanatory `error` field inside
the payload — rather than an HTTP error, since the voice platform cannot
tolerate a hard failure mid-call. -/
def vapiGetUserInfo (db : DB) (phone : String) : VapiUserInfo :=
  match db.users.find? (fun u => u.phone_number = phone) with
  | none =>
    { user_id := none
      name := "valued customer"
      debt := 0
      error := some "User not found in our system" }
  | some u =>
    { user_id := some u.id
      name := u.name
      debt := u.remaining_debt
      error := none }

/-! ### Authentication middleware -/

/-- A row of the `api_credentials` table.  `expired` models
`expires_at IS NOT NULL AND expires_at <= NOW()`, so the SQL filter
`is_active = true AND (expires_at IS NULL OR expires_at > NOW())` becomes
`is_active ∧ ¬expired`. -/
structure Credential where
  id : String
  name : String
  key_hash : String
  is_active : Bool
  expired : Bool
  request_count : ℕ
deriving DecidableEq

/-- The credential-bearing headers of an inbound request:
`x-api-key` and `authorization`.  A missing header is `none`; the empty
string is falsy in JavaScript and both middlewares treat it like a missing
header. -/
structure AuthHeaders where
  apiKeyHeader : Option String
  authHeader : Option String
deriving DecidableEq

/-- Outcome of the M2M middleware: `next` passes control to the route
handler together with the credentials table after any usage-counter update;
`unauthorized` is a 401 JSON response and the handler never runs. -/
inductive AuthOutcome where
  | next (creds : List Credential)
  | unauthorized (msg : String)
deriving DecidableEq

/-- The API-key arm shared by both `authenticateM2M` variants: when the
`x-api-key` header is present (truthy), compare it with `bcrypt.compare`
against every active, non-expired credential; on the first match, bump that
credential's `request_count` (and `last_used_at`) and return the matched
row.  `bcryptCompare` abstracts the bcrypt library call. -/
def findApiKeyMatch (bcryptCompare : String → String → Bool)
    (creds : List Credential) (h : AuthHeaders) : Option Credential :=
  match h.apiKeyHeader with
  | none => none
  | some apiKey =>
    if apiKey = "" then none
    else (creds.filter fun c => c.is_active && !c.expired).find? fun c =>
      bcryptCompare apiKey c.key_hash

/-- The credentials table after a successful API-key match bumps the
matched credential's request counter. -/
def bumpRequestCount (creds : List Credential) (matched : Credential) :
    List Credential :=
  creds.map fun c =>
    if c.id = matched.id then { c with request_count := c.request_count + 1 } else c

/-- `authenticateM2M` as found in src/unnamed/part_000: after a failed (or
absent) API-key check it requires an `Authorization` header, extracts the
token as `authHeader.split(' ')[1]`, and verifies it against the shared
JWT secret; a missing header, missing token or failed verification is a
401.  `jwtVerifyOk` abstracts `jwt.verify` succeeding against
`JWT_M2M_SECRET`. -/
def authenticateM2M (bcryptCompare : String → String → Bool)
    (jwtVerifyOk : String → Bool) (creds : List Credential) (h : AuthHeaders) :
    AuthOutcome :=
  match findApiKeyMatch bcryptCompare creds h with
  | some matched => .next (bumpRequestCount creds matched)
  | none =>
    match h.authHeader with
    | none => .unauthorized "No authorization header provided"
    | some header =>
      if header = "" then .unauthorized "No authorization header provided"
      else
        let token := (header.splitOn " ").getD 1 ""
        if token = "" then .unauthorized "No token provided"
        else if jwtVerifyOk token then .next creds
        else .unauthorized "Invalid token"

/-- `authenticateM2M` as found at the known path src/middleware/auth.ts:
the same API-key arm, but when no credential matches the function falls
through to a bare `next()` — no bearer-token verification and no 401 are
reachable (the JWT error handling in its catch block is dead code). -/
def authenticateM2Mshipped (bcryptCompare : String → String → Bool)
    (creds : List Credential) (h : AuthHeaders) : AuthOutcome :=
  match findApiKeyMatch bcryptCompare creds h with
  | some matched => .next (bumpRequestCount creds matched)
  | none => .next creds

/-! ### Lemmas about the call-result pipeline -/

theorem applyIntegrationError_crm (ints : Integrations) (msg : String) :
    (applyIntegrationError ints msg).crm = ints.crm := by
  unfold applyIntegrationError
  split_ifs <;> rfl

theorem processIntegrations_crm (ints : Integrations) (status : Outcome)
    (userEmail : Option String) (eo : Except String EmailOk) :
    (processIntegrations ints status userEmail eo).crm = ints.crm := by
  unfold processIntegrations
  split_ifs
  · cases userEmail with
    | none => rfl
    | some e =>
      cases eo with
      | ok r => rfl
      | error m => exact applyIntegrationError_crm ints m
  · rfl

/-! ### Claims about the Call Session Recorder -/

/-- Demo store for the claims below: one debtor with no email on file owing
5000. -/
def debtDemoUser : User :=
  { id := "u1", name := "John Doe", phone_number := "+1234567890",
    email := none, remaining_debt := 5000 }

/-- Demo store containing only `debtDemoUser` and no sessions. -/
def debtDemoDB : DB := ⟨[debtDemoUser], []⟩

/-- Call-result body of spec §8: outcome SUCCESS, final amount 150, debt
figure 5000. -/
def debtDemoRequest : CallResultRequest :=
  { user_id := "u1", status := .SUCCESS, initial_amount := 100,
    final_amount := 150, debt := 5000 }

/-- C3 (code evaluated at the failing input).  Recording SUCCESS with
final_amount 150 against debt 5000 persists a session with
`debt_after = 4850` — but the user's `remaining_debt` stays 5000: the only
debt-propagation mechanism is the `update_user_debt` trigger, which the
schema attaches `AFTER UPDATE` on `call_sessions`, and the handler only
ever INSERTs (sessions are created already closed), so the trigger never
fires and nothing updates the `users` table. -/
theorem callResult_debt_not_propagated :
    ((processCallResult debtDemoDB debtDemoRequest "SESSION-1"
        (.error invoiceEmailFailureMsg)).map fun p =>
      (p.1.call_sessions.map fun row => row.debt_after,
       p.1.users.map fun u => u.remaining_debt,
       p.2.debt_left))
      = .ok ([4850], [5000], 4850) := by
  norm_num [processCallResult, processIntegrations, debtDemoDB, debtDemoUser,
    debtDemoRequest, insertCallSession, initialIntegrations, Except.map]
  decide

/-- C6 (confirmed).  The debt-after computation: REFUSED leaves the debt
figure unchanged, every other outcome yields `max 0 (debt - amount)`; and
in the call-result handler a REFUSED outcome leaves every user record
untouched and reports the incoming debt figure back as `debt_left`. -/
theorem calculateDebtAfter_spec (s : Outcome) (d a : ℚ) :
    calculateDebtAfter .REFUSED d a = d ∧
    (s ≠ .REFUSED → calculateDebtAfter s d a = max 0 (d - a)) ∧
    ∀ (db : DB) (req : CallResultRequest) (sessionId : String)
      (eo : Except String EmailOk) (p : DB × CallResultResponse),
      req.status = .REFUSED → processCallResult db req sessionId eo = .ok p →
      p.1.users = db.users ∧ p.2.debt_left = req.debt := by
  refine ⟨by simp [calculateDebtAfter], fun hs => by simp [calculateDebtAfter, hs], ?_⟩
  intro db req sessionId eo p hst hok
  unfold processCallResult at hok
  cases hfind : db.users.find? fun u => u.id = req.user_id with
  | none => rw [hfind] at hok; exact absurd hok (by simp)
  | some user =>
    rw [hfind] at hok
    simp only [Except.ok.injEq] at hok
    subst hok
    exact ⟨rfl, by simp [hst]⟩

/-- C6 (witness): SUCCESS at debt 5000, amount 150 follows the
`max 0 (debt - amount)` arm. -/
theorem calculateDebtAfter_spec_witness :
    calculateDebtAfter .SUCCESS 5000 150 = max 0 (5000 - 150) :=
  (calculateDebtAfter_spec .SUCCESS 5000 150).2.1 (by simp)

/-- C10 (confirmed).  The crm sub-status of every stored integrations blob
is unconditionally SUCCESS with the session identifier as external id:
`createIntegrationTracking` initialises it that way, both call-result
handlers build the same inline blob, and no later step (success path or
catch block) ever touches the crm entry — regardless of outcome, email
presence or invoice/email failures. -/
theorem crm_substatus_always_success
    (sid : String) (db : DB) (req : CallResultRequest) (eo : Except String EmailOk)
    (pm : DB × CallResultResponse) (pv : DB × VapiSaveResponse)
    (hm : processCallResult db req sid eo = .ok pm)
    (hv : vapiSaveResult db req sid eo = .ok pv) :
    (createIntegrationTracking sid).crm = ⟨"SUCCESS", some sid, none⟩ ∧
    (pm.1.call_sessions.getLast?.map fun row => row.integrations.crm)
      = some ⟨"SUCCESS", some sid, none⟩ ∧
    (pv.1.call_sessions.getLast?.map fun row => row.integrations.crm)
      = some ⟨"SUCCESS", some sid, none⟩ := by
  refine ⟨rfl, ?_, ?_⟩
  · unfold processCallResult at hm
    cases hfind : db.users.find? fun u => u.id = req.user_id with
    | none => rw [hfind] at hm; exact absurd hm (by simp)
    | some user =>
      rw [hfind] at hm
      simp only [Except.ok.injEq] at hm
      subst hm
      simp [insertCallSession, processIntegrations_crm, initialIntegrations]
  · unfold vapiSaveResult at hv
    cases hfind : db.users.find? fun u => u.id = req.user_id with
    | none => rw [hfind] at hv; exact absurd hv (by simp)
    | some user =>
      rw [hfind] at hv
      simp only [Except.ok.injEq] at hv
      subst hv
      simp [insertCallSession, processIntegrations_crm, initialIntegrations]

/-- C10 (witness): a REFUSED call-result for the demo user through both
paths; the theorem applies and the stored crm entries carry the session
id. -/
theorem crm_substatus_always_success_witness :
    ((⟨debtDemoDB.users,
        [⟨"u1", "S1", "MANUAL", .REFUSED, 0, 0, 0, 0, initialIntegrations "S1"⟩]⟩ :
          DB).call_sessions.getLast?.map fun row => row.integrations.crm)
      = some ⟨"SUCCESS", some "S1", none⟩ :=
  (crm_substatus_always_success "S1" debtDemoDB ⟨"u1", .REFUSED, 0, 0, 0⟩
    (.error invoiceEmailFailureMsg)
    (⟨debtDemoDB.users,
        [⟨"u1", "S1", "MANUAL", .REFUSED, 0, 0, 0, 0, initialIntegrations "S1"⟩]⟩,
      ⟨.REFUSED, 0, 0, none, false, "S1"⟩)
    (⟨debtDemoDB.users,
        [⟨"u1", "S1", "VAPI", .REFUSED, 0, 0, 0, 0, initialIntegrations "S1"⟩]⟩,
      ⟨true, .REFUSED, 0, 0, "S1", ⟨false, false, true⟩⟩)
    (by simp [processCallResult, processIntegrations, debtDemoDB, debtDemoUser,
        insertCallSession, initialIntegrations])
    (by simp [vapiSaveResult, processIntegrations, debtDemoDB, debtDemoUser,
        insertCallSession, initialIntegrations])).2.1

/-- Demo debtor with an email address on file. -/
def emailDemoUser : User :=
  { id := "u2", name := "Jane Smith", phone_number := "+1234567891",
    email := some "jane.smith@example.com", remaining_debt := 5000 }

/-- Demo store containing only `emailDemoUser` and no sessions. -/
def emailDemoDB : DB := ⟨[emailDemoUser], []⟩

/-- Call-result body used for the email-failure claims. -/
def emailDemoRequest : CallResultRequest :=
  { user_id := "u2", status := .SUCCESS, initial_amount := 100,
    final_amount := 150, debt := 5000 }

/-- C4 (counterexample).  When the invoice-render sub-step throws,
`sendInvoiceEmail` rethrows it as `Invoice email sending failed`; the
handler's case-sensitive `includes('invoice')` check does not match that
text (its only `Invoice` is capitalised), so the invoice sub-status stays
PENDING instead of being set to FAILED — the claim's "corresponding
sub-status" is wrong for the invoice step.  The write itself does succeed:
the session row is stored and the handler returns the success JSON. -/
theorem invoice_failure_not_marked_cx :
    ((processCallResult emailDemoDB emailDemoRequest "SESSION-2"
        (sendInvoiceEmail (.error invoicePdfFailureMsg) (.ok "E1"))).map fun p =>
      p.1.call_sessions.map fun row =>
        (row.integrations.invoice.status, row.integrations.email.status,
          row.integrations.email.error))
      = .ok [("PENDING", "FAILED", some invoiceEmailFailureMsg)] := by
  have h1 : strContains invoiceEmailFailureMsg "invoice" = false := by decide
  have h2 : strContains invoiceEmailFailureMsg "email" = true := by decide
  simp [processCallResult, processIntegrations, emailDemoDB, emailDemoUser,
    emailDemoRequest, insertCallSession, initialIntegrations, sendInvoiceEmail,
    applyIntegrationError, h1, h2, Except.map]

/-- C4 (amended).  When the invoice-render or email-send sub-step throws
during call-result processing for a SUCCESS or PARTIAL outcome on a user
with an email address, the error surfacing from `sendInvoiceEmail` is
always `Invoice email sending failed`; the handler records FAILED with that
error text on the email sub-status only (the invoice sub-status stays
PENDING, since the case-sensitive substring check misses the capitalised
message), and the call-result write still succeeds: the session row is
persisted and a success response is returned whenever the database is
reachable. -/
theorem email_pipeline_failure_recorded (db : DB) (req : CallResultRequest)
    (sid : String) (user : User) (e : String) (m : String)
    (pdfResult sendResult : Except String String)
    (hfind : (db.users.find? fun u => u.id = req.user_id) = some user)
    (hemail : user.email = some e)
    (hst : req.status = .SUCCESS ∨ req.status = .PARTIAL)
    (hfail : sendInvoiceEmail pdfResult sendResult = .error m) :
    ((processCallResult db req sid (sendInvoiceEmail pdfResult sendResult)).map fun p =>
      (p.1.call_sessions.length,
        p.1.call_sessions.getLast?.map fun row =>
          (row.integrations.invoice.status, row.integrations.email.status,
            row.integrations.email.error)))
      = .ok (db.call_sessions.length + 1,
          some ("PENDING", "FAILED", some m)) := by
  have hm : m = invoiceEmailFailureMsg := by
    cases pdfResult <;> cases sendResult <;>
      simp [sendInvoiceEmail] at hfail <;> exact hfail.symm
  subst hm
  have h1 : strContains invoiceEmailFailureMsg "invoice" = false := by decide
  have h2 : strContains invoiceEmailFailureMsg "email" = true := by decide
  unfold processCallResult
  rw [hfind]
  simp [insertCallSession, processIntegrations, hemail, hst, hfail,
    applyIntegrationError, h1, h2, initialIntegrations, Except.map]

/-- C4 (witness for the amended theorem): the demo user with an email, a
failing PDF render, and the resulting stored sub-statuses. -/
theorem email_pipeline_failure_recorded_witness :
    ((processCallResult emailDemoDB emailDemoRequest "SESSION-3"
        (sendInvoiceEmail (.error invoicePdfFailureMsg) (.ok "E1"))).map fun p =>
      (p.1.call_sessions.length,
        p.1.call_sessions.getLast?.map fun row =>
          (row.integrations.invoice.status, row.integrations.email.status,
            row.integrations.email.error)))
      = .ok (emailDemoDB.call_sessions.length + 1,
          some ("PENDING", "FAILED", some invoiceEmailFailureMsg)) :=
  email_pipeline_failure_recorded emailDemoDB emailDemoRequest "SESSION-3"
    emailDemoUser "jane.smith@example.com" invoiceEmailFailureMsg
    (.error invoicePdfFailureMsg) (.ok "E1")
    (by simp [emailDemoDB, emailDemoUser, emailDemoRequest]) rfl (Or.inl rfl) rfl

/-! ### Claims about user lookup and authentication -/

/-- C8 (confirmed).  Looking up a phone number with no matching user row:
the first-party `GET /api/userinfo` route answers the 404 `User not found`
error, while the voice-platform `POST /api/vapi/get-user-info` variant
degrades to a synthetic success payload — null user id, name
`valued customer` and debt 0 — instead of an error. -/
theorem userinfo_notfound_branches (db : DB) (phone : String)
    (h : (db.users.find? fun u => u.phone_number = phone) = none) :
    getUserInfo db phone = .notFound ∧
    userInfoHttpStatus (getUserInfo db phone) = 404 ∧
    vapiGetUserInfo db phone =
      ⟨none, "valued customer", 0, some "User not found in our system"⟩ := by
  simp [getUserInfo, vapiGetUserInfo, userInfoHttpStatus, h]

/-- C8 (witness): an unknown phone number against the demo store. -/
theorem userinfo_notfound_branches_witness :
    getUserInfo debtDemoDB "+19999999999" = .notFound ∧
    userInfoHttpStatus (getUserInfo debtDemoDB "+19999999999") = 404 ∧
    vapiGetUserInfo debtDemoDB "+19999999999" =
      ⟨none, "valued customer", 0, some "User not found in our system"⟩ :=
  userinfo_notfound_branches debtDemoDB "+19999999999"
    (by simp [debtDemoDB, debtDemoUser])

/-- Demo credential row: active, not expired, zero requests so far. -/
def demoCred : Credential :=
  { id := "c1", name := "test-service", key_hash := "HASH1",
    is_active := true, expired := false, request_count := 0 }

/-- C5 (code evaluated at the failing input).  A request to a protected
route with neither an `x-api-key` nor an `authorization` header: the
middleware shipped at src/middleware/auth.ts falls through to `next()`, so
the route handler runs unauthenticated — no 401 is produced, contradicting
the claim.  The variant in src/unnamed/part_000 behaves as the claim says
(401, handler blocked), and both variants do bump the usage counter on an
API-key match. -/
theorem authenticateM2M_shipped_no_reject_cx :
    authenticateM2Mshipped (fun _ _ => false) [demoCred] ⟨none, none⟩
      = .next [demoCred] ∧
    authenticateM2M (fun _ _ => false) (fun _ => false) [demoCred] ⟨none, none⟩
      = .unauthorized "No authorization header provided" ∧
    authenticateM2Mshipped (fun key hash => key = hash) [demoCred]
        ⟨some "HASH1", none⟩
      = .next [{ demoCred with request_count := 1 }] ∧
    authenticateM2M (fun key hash => key = hash) (fun _ => false) [demoCred]
        ⟨some "HASH1", none⟩
      = .next [{ demoCred with request_count := 1 }] := by
  refine ⟨rfl, rfl, ?_, ?_⟩ <;>
    simp [authenticateM2Mshipped, authenticateM2M, findApiKeyMatch,
      bumpRequestCount, demoCred]

end JulsNegotiator
